import Mathlib

/-!
Shallow embedding of the configuration-resolution, classification and
color-mapping engine of `3D Z-value Subgroup Visualization (python).py`,
together with its data-loading and averaging helpers.

Numbers are modelled as rationals (`ℚ`): the Python code computes with
floats, and every claim below is about the branching/arithmetic logic,
not float rounding.  Python's float floor division `//` is modelled by
`Int.floor` of the exact quotient.
-/

set_option autoImplicit false

namespace HTSViz

/-- Failure kinds of the pipeline.  Each constructor models a concrete
Python exception raised by the source or by one of its libraries:
`UnknownStrain` is the `KeyError` raised by `CONFIG[strain]` (line 154);
`NoConfigForGroup` is the `ValueError` raised at line 161;
`MalformedColumns` is the pandas `KeyError` raised by the unconditional
column selection `df[['X value', 'Y value', 'Z value']]` (line 190) when a
required column is absent;
`EmptyInput` is the `ValueError` raised by `pd.concat([])` (line 196) when
no sheet matched a dose-stage pattern;
`NormalizeValueError` is the `ValueError` raised by
`matplotlib.colors.Normalize.__call__` when `vmin > vmax` (line 252). -/
inductive Err where
  | UnknownStrain
  | NoConfigForGroup
  | MalformedColumns
  | EmptyInput
  | NormalizeValueError
deriving DecidableEq, Repr

/-- One parameter record of `CONFIG` (source lines 75-142): threshold
between the two regimes, the strain-specific binning rule, bin width,
axis ranges and tick intervals. -/
structure Cfg where
  z_lim : ℚ
  index_mode : String
  bin_size : ℚ
  axis_xy : ℚ
  axis_z : ℚ
  tick_xy : ℚ
  tick_z : ℚ
deriving DecidableEq, Repr

/-- The `ANTIBIOTIC_GROUP` static mapping (source lines 37-60), an
association list from lowercase antibiotic abbreviation to group name. -/
def ANTIBIOTIC_GROUP : List (String × String) :=
  [("amk", "non_beta"), ("gen", "non_beta"), ("tgc", "non_beta"),
   ("tet", "non_beta"), ("lvx", "non_beta"), ("cip", "non_beta"),
   ("rif", "non_beta"), ("cst", "non_beta"), ("pmb", "non_beta"),
   ("van", "non_beta"),
   ("caz", "beta"), ("azetreonam", "beta"), ("meropenem", "beta"),
   ("fdc", "beta"),
   ("chir", "non_beta"), ("pf", "non_beta"), ("dox", "non_beta"),
   ("caz_p", "beta"), ("azetreonam_p", "beta"), ("meropenem_p", "beta")]

/-- The `AB_single → non_beta` record of `CONFIG` (source lines 78-86). -/
def cfg_AB_single_non_beta : Cfg := ⟨95, "ab", 10, 180, 180, 20, 20⟩

/-- The `AB_single → beta` record of `CONFIG` (source lines 87-95). -/
def cfg_AB_single_beta : Cfg := ⟨95, "ab", 10, 180, 200, 20, 20⟩

/-- The `AB_combi → all` record of `CONFIG` (source lines 99-107). -/
def cfg_AB_combi_all : Cfg := ⟨95, "ab", 10, 180, 180, 20, 20⟩

/-- The `PAO1 → non_beta` record of `CONFIG` (source lines 111-119). -/
def cfg_PAO1_non_beta : Cfg := ⟨160, "pa", 20, 180, 180, 20, 20⟩

/-- The `PAO1 → beta` record of `CONFIG` (source lines 120-128). -/
def cfg_PAO1_beta : Cfg := ⟨160, "pa", 20, 180, 600, 20, 100⟩

/-- The `SA → all` record of `CONFIG` (source lines 132-140). -/
def cfg_SA_all : Cfg := ⟨160, "sa", 10, 180, 180, 20, 20⟩

/-- The `CONFIG` static two-level table (source lines 75-142): strain →
group → parameter record, as a nested association list. -/
def CONFIG : List (String × List (String × Cfg)) :=
  [("AB_single", [("non_beta", cfg_AB_single_non_beta),
                  ("beta", cfg_AB_single_beta)]),
   ("AB_combi", [("all", cfg_AB_combi_all)]),
   ("PAO1", [("non_beta", cfg_PAO1_non_beta),
             ("beta", cfg_PAO1_beta)]),
   ("SA", [("all", cfg_SA_all)])]

/-- Every parameter record appearing in `CONFIG`, in table order. -/
def allConfigRecords : List Cfg :=
  (CONFIG.map (fun p => p.2.map Prod.snd)).flatten

/-- ASCII lowercase of one character, modelling Python's `str.lower` on
the ASCII range (the `ANTIBIOTIC_GROUP` keys are all ASCII). -/
def charLower (c : Char) : Char :=
  if 'A' ≤ c ∧ c ≤ 'Z' then Char.ofNat (c.toNat + 32) else c

/-- Characterwise lowercase of a string, modelling `antibiotic.lower()`
(source line 151). -/
def toLowerStr (s : String) : String :=
  String.mk (s.data.map charLower)

/-- Group resolution, the first two lines of `get_axis_config` (source
lines 151-152): lowercase the antibiotic code, then
`ANTIBIOTIC_GROUP.get(antibiotic, "non_beta")`. -/
def resolve_group (antibiotic : String) : String :=
  (ANTIBIOTIC_GROUP.lookup (toLowerStr antibiotic)).getD "non_beta"

/-- Strain/group lookup of `get_axis_config` (source lines 154-161):
`CONFIG[strain]` raises `KeyError` on an unknown strain; within the
strain's sub-table the group is looked up, falling back to the `"all"`
key, and a `ValueError` is raised when neither exists. -/
def resolve_parameters (strain group : String) : Except Err Cfg :=
  match CONFIG.lookup strain with
  | none => .error .UnknownStrain
  | some strain_cfg =>
    match strain_cfg.lookup group with
    | some c => .ok c
    | none =>
      match strain_cfg.lookup "all" with
      | some c => .ok c
      | none => .error .NoConfigForGroup

/-- `get_axis_config` (source lines 148-161): resolve the antibiotic
group, then resolve the strain × group parameter record. -/
def get_axis_config (strain antibiotic : String) : Except Err Cfg :=
  resolve_parameters strain (resolve_group antibiotic)

/-- `get_group1_index` (source lines 211-226): the strain-specific low
regime bin index.  Python's float floor division `//` is `Int.floor` of
the exact quotient, and the outer `int(...)` is the identity on an
already-floored value. -/
def get_group1_index (z : ℚ) (mode : String) (bin_size : ℚ) : ℤ :=
  if mode = "ab" then ⌊(z - 12) / bin_size⌋
  else if mode = "sa" then ⌊z / bin_size⌋
  else if mode = "pa" then ⌊z / bin_size⌋
  else 0

/-- The `group1_palette` discrete 8-entry palette (source lines 236-239). -/
def group1_palette : List String :=
  ["grey", "grey", "#9D3CFF", "#00A0FF", "#009300", "#E6DC32", "#F08228", "red"]

/-- The clamping `idx = max(0, min(idx, len(group1_palette) - 1))`
(source line 248). -/
def clampIdx (idx : ℤ) : ℤ :=
  max 0 (min idx ((group1_palette.length : ℤ) - 1))

/-- Result of `get_color`.  `discrete s` is the palette string returned
by the group1 branch.  `gradient n` carries the normalized fraction
`norm(z)` fed to the fixed 4-stop colormap `cmap` and `to_hex`
(source lines 241-243 and 253-254); per the scope of the design, the
colormap's color-space math is an external pure function of `n` alone,
so `n` determines the returned hex color. -/
inductive Color where
  | discrete : String → Color
  | gradient : ℚ → Color
deriving DecidableEq, Repr

/-- Modelled after `matplotlib.colors.Normalize` with explicit
`vmin`/`vmax` (called at source lines 252-253), an external library
function: it returns `0` when `vmin == vmax`, raises `ValueError` when
`vmin > vmax`, and otherwise returns `(value - vmin) / (vmax - vmin)`. -/
def mplNormalize (vmin vmax value : ℚ) : Except Err ℚ :=
  if vmin = vmax then .ok 0
  else if vmax < vmin then .error .NormalizeValueError
  else .ok ((value - vmin) / (vmax - vmin))

/-- `get_color` (source lines 229-254): values at or below `z_lim` get a
clamped discrete palette entry; values above it get the gradient color of
the fraction normalized over `[z_lim, actual_max]`. -/
def get_color (z : ℚ) (cfg : Cfg) (actual_max : ℚ) : Except Err Color :=
  if z ≤ cfg.z_lim then
    .ok (.discrete (group1_palette.getD
      (clampIdx (get_group1_index z cfg.index_mode cfg.bin_size)).toNat "grey"))
  else
    match mplNormalize cfg.z_lim actual_max z with
    | .ok n => .ok (.gradient n)
    | .error e => .error e

/-- The two response regimes split by `z_lim`. -/
inductive Regime where
  | Low
  | High
deriving DecidableEq, Repr

/-- The classification implicit in `get_color`'s branch (source line 246)
together with the clamped bin index it uses in the low regime (source
lines 247-248): Low with a clamped bin index when `z <= z_lim`, High with
no index otherwise. -/
def classify (z : ℚ) (cfg : Cfg) : Regime × Option ℤ :=
  if z ≤ cfg.z_lim then
    (.Low, some (clampIdx (get_group1_index z cfg.index_mode cfg.bin_size)))
  else
    (.High, none)

/-- Prefix test on character lists, used to model Python's substring
containment operator `in`. -/
def charsPre : List Char → List Char → Bool
  | [], _ => true
  | _ :: _, [] => false
  | a :: as, b :: bs => a == b && charsPre as bs

/-- Substring occurrence test on character lists. -/
def charsHaveSub (pat : List Char) : List Char → Bool
  | [] => charsPre pat []
  | l@(_ :: rest) => charsPre pat l || charsHaveSub pat rest

/-- Python's `pat in s` substring containment on strings. -/
def strContains (s pat : String) : Bool :=
  charsHaveSub pat.toList s.toList

/-- Python's `s.endswith(pat)` suffix test on strings. -/
def strEndsWith (s pat : String) : Bool :=
  charsPre pat.toList.reverse s.toList.reverse

/-- Dose-stage determination from a sheet name (source lines 181-188):
`"_IC50" in sheet` → IC50, else `sheet.endswith("_MIC")` → MIC, else
`"_9xMIC" in sheet` → 9xMIC, else the sheet is skipped (`continue`). -/
def sheetStage (name : String) : Option String :=
  if strContains name "_IC50" then some "IC50"
  else if strEndsWith name "_MIC" then some "MIC"
  else if strContains name "_9xMIC" then some "9xMIC"
  else none

/-- One spreadsheet sheet after pandas reading and numeric coercion
(source lines 173-178): its name, its column labels, and its rows, each
row an association list from column label to the coerced cell value
(`none` models NaN from the `na_values` sentinels or failed coercion). -/
structure Sheet where
  name : String
  columns : List String
  rows : List (List (String × Option ℚ))
deriving DecidableEq, Repr

/-- The three required coordinate columns (source lines 176 and 190). -/
def requiredCols : List String :=
  ["X value", "Y value", "Z value"]

/-- Cell lookup in a row: absent key or NaN cell both read as `none`. -/
def getCell (row : List (String × Option ℚ)) (col : String) : Option ℚ :=
  (row.lookup col).join

/-- One measurement point: a row of `df2` after `dropna` (source lines
190-193), carrying the sheet name and the dose-stage group. -/
structure Point where
  x : ℚ
  y : ℚ
  z : ℚ
  sheet_name : String
  shape_group : String
deriving DecidableEq, Repr

/-- Per-sheet body of the loop of `load_all_sheets` (source lines
172-194): a sheet whose name matches no dose-stage pattern is skipped
(`ok none`); a matching sheet missing one of the required columns makes
the unconditional selection `df[['X value', 'Y value', 'Z value']]` raise
a pandas `KeyError` (`error MalformedColumns`); otherwise the rows with
all three coordinates present survive `dropna` and form the sheet's
frame. -/
def processSheet (s : Sheet) : Except Err (Option (List Point)) :=
  match sheetStage s.name with
  | none => .ok none
  | some sg =>
    if requiredCols.all (fun c => s.columns.contains c) then
      .ok (some (s.rows.filterMap (fun r =>
        match getCell r "X value", getCell r "Y value", getCell r "Z value" with
        | some x, some y, some z => some ⟨x, y, z, s.name, sg⟩
        | _, _, _ => none)))
    else
      .error .MalformedColumns

/-- The accumulated list `dfs` of per-sheet frames (source lines 170-194);
the first sheet to raise aborts the loop, exactly as a Python exception
would. -/
def loadFrames : List Sheet → Except Err (List (List Point))
  | [] => .ok []
  | s :: rest =>
    match processSheet s with
    | .error e => .error e
    | .ok none => loadFrames rest
    | .ok (some f) => (loadFrames rest).map (fun dfs => f :: dfs)

/-- `load_all_sheets` (source lines 167-196): process every sheet, then
`pd.concat(dfs)`, which raises `ValueError` when `dfs` is empty — that is,
when no sheet matched a dose-stage pattern. -/
def load_all_sheets (sheets : List Sheet) : Except Err (List Point) :=
  match loadFrames sheets with
  | .error e => .error e
  | .ok [] => .error .EmptyInput
  | .ok dfs => .ok dfs.flatten

/-- One aggregated point: a row of the output of `avg_data`. -/
structure AggPoint where
  sheet_name : String
  shape_group : String
  X : ℚ
  Y : ℚ
  Z : ℚ
deriving DecidableEq, Repr

/-- Lexicographic order on grouping keys, modelling pandas' sorting of
group keys in `groupby` (default `sort=True`). -/
def keyLe (a b : String × String) : Bool :=
  match compare a.1 b.1 with
  | .lt => true
  | .gt => false
  | .eq => compare a.2 b.2 ≠ .gt

/-- Insertion step of the grouping-key sort. -/
def insertKey (k : String × String) :
    List (String × String) → List (String × String)
  | [] => [k]
  | x :: xs => if keyLe k x then k :: x :: xs else x :: insertKey k xs

/-- Insertion sort of the grouping keys. -/
def sortKeys : List (String × String) → List (String × String)
  | [] => []
  | x :: xs => insertKey x (sortKeys xs)

/-- `avg_data` (source lines 199-205): group the points by
`(sheet_name, shape_group)` and take the arithmetic mean of each
coordinate per group.  pandas `groupby` on an empty frame yields an empty
result, not an error. -/
def avg_data (pts : List Point) : List AggPoint :=
  let keys := sortKeys ((pts.map (fun p => (p.sheet_name, p.shape_group))).dedup)
  keys.map (fun k =>
    let grp := pts.filter (fun p => (p.sheet_name, p.shape_group) == k)
    ⟨k.1, k.2,
     (grp.map (fun p => p.x)).sum / (grp.length : ℚ),
     (grp.map (fun p => p.y)).sum / (grp.length : ℚ),
     (grp.map (fun p => p.z)).sum / (grp.length : ℚ)⟩)

/-- A successful association-list lookup returns one of the stored
values. -/
theorem lookup_mem_snd (l : List (String × String)) (k v : String)
    (h : l.lookup k = some v) : v ∈ l.map Prod.snd := by
  induction l with
  | nil => simp [List.lookup] at h
  | cons p rest ih =>
    obtain ⟨a, b⟩ := p
    by_cases hk : k = a
    · subst hk
      simp [List.lookup] at h
      simp [h]
    · have hne : (k == a) = false := beq_false_of_ne hk
      simp [List.lookup, hne] at h
      simp [ih h]

/-- C1: for every value `z` and parameter record, the classifier assigns
the Low regime exactly when `z ≤ z_lim` (the threshold itself included),
High otherwise; in particular the threshold value itself is classified
Low. -/
theorem classify_low_iff_le_threshold (z : ℚ) (cfg : Cfg) :
    ((classify z cfg).1 = Regime.Low ↔ z ≤ cfg.z_lim) ∧
    (classify cfg.z_lim cfg).1 = Regime.Low := by
  constructor
  · by_cases h : z ≤ cfg.z_lim <;> simp [classify, h]
  · simp [classify]

/-- C2: for positive bin width, the unclamped Low-regime bin index is
`⌊(z - 12) / bin_size⌋` for mode `"ab"`, `⌊z / bin_size⌋` for modes
`"sa"` and `"pa"`, and `0` for any other mode string. -/
theorem get_group1_index_formula (z bin_size : ℚ) (h : 0 < bin_size) :
    get_group1_index z "ab" bin_size = ⌊(z - 12) / bin_size⌋ ∧
    get_group1_index z "sa" bin_size = ⌊z / bin_size⌋ ∧
    get_group1_index z "pa" bin_size = ⌊z / bin_size⌋ ∧
    ∀ mode : String, mode ∉ (["ab", "sa", "pa"] : List String) →
      get_group1_index z mode bin_size = 0 := by
  refine ⟨by simp [get_group1_index], by simp [get_group1_index],
    by simp [get_group1_index], ?_⟩
  intro mode hm
  simp only [List.mem_cons, List.not_mem_nil, or_false, not_or] at hm
  obtain ⟨h1, h2, h3⟩ := hm
  simp [get_group1_index, h1, h2, h3]

/-- Witness for C2 at `z = 22`, `bin_size = 10`. -/
theorem get_group1_index_formula_witness :
    (0 : ℚ) < 10 ∧ get_group1_index 22 "ab" 10 = ⌊((22 : ℚ) - 12) / 10⌋ :=
  ⟨by norm_num, (get_group1_index_formula 22 10 (by norm_num)).1⟩

/-- C4: antibiotic-group resolution lowercases its input, looks it up in
`ANTIBIOTIC_GROUP`, returns `"non_beta"` whenever the lowercase form is
not a key, and always returns one of the group names (total function). -/
theorem resolve_group_default_total (s : String) :
    resolve_group s = ((ANTIBIOTIC_GROUP.lookup (toLowerStr s)).getD "non_beta") ∧
    (ANTIBIOTIC_GROUP.lookup (toLowerStr s) = none → resolve_group s = "non_beta") ∧
    resolve_group s ∈ (["non_beta", "beta", "all"] : List String) := by
  refine ⟨rfl, ?_, ?_⟩
  · intro h
    simp [resolve_group, h]
  · cases hl : ANTIBIOTIC_GROUP.lookup (toLowerStr s) with
    | none => simp [resolve_group, hl]
    | some g =>
      have hg : g ∈ ANTIBIOTIC_GROUP.map Prod.snd := lookup_mem_snd _ _ _ hl
      have hval : ∀ v ∈ ANTIBIOTIC_GROUP.map Prod.snd,
          v ∈ (["non_beta", "beta", "all"] : List String) := by decide
      simpa [resolve_group, hl] using hval g hg

/-- Witness for C4 at the unmapped code `"XYZ"`. -/
theorem resolve_group_default_total_witness :
    ANTIBIOTIC_GROUP.lookup (toLowerStr "XYZ") = none ∧
    resolve_group "XYZ" = "non_beta" :=
  ⟨by decide, (resolve_group_default_total "XYZ").2.1 (by decide)⟩

/-- C5: for a strain present in `CONFIG`, parameter resolution returns
the group's record when the sub-table has the group, else the `"all"`
record when present, and otherwise fails with `NoConfigForGroup`. -/
theorem resolve_parameters_fallback (strain group : String)
    (sc : List (String × Cfg)) (h : CONFIG.lookup strain = some sc) :
    (∀ c, sc.lookup group = some c →
      resolve_parameters strain group = .ok c) ∧
    (sc.lookup group = none → ∀ c, sc.lookup "all" = some c →
      resolve_parameters strain group = .ok c) ∧
    (sc.lookup group = none → sc.lookup "all" = none →
      resolve_parameters strain group = .error Err.NoConfigForGroup) := by
  refine ⟨?_, ?_, ?_⟩
  · intro c hc
    simp [resolve_parameters, h, hc]
  · intro hg c ha
    simp [resolve_parameters, h, hg, ha]
  · intro hg ha
    simp [resolve_parameters, h, hg, ha]

/-- Witness for C5: strain `"AB_combi"` with the unlisted group
`"beta"` falls back to the `"all"` record. -/
theorem resolve_parameters_fallback_witness :
    CONFIG.lookup "AB_combi" = some [("all", cfg_AB_combi_all)] ∧
    ([("all", cfg_AB_combi_all)] : List (String × Cfg)).lookup "beta" = none ∧
    resolve_parameters "AB_combi" "beta" = .ok cfg_AB_combi_all :=
  ⟨by rfl, by rfl,
    (resolve_parameters_fallback "AB_combi" "beta" _ (by rfl)).2.1
      (by rfl) _ (by rfl)⟩

/-- C6: a strain absent from `CONFIG`'s top-level keys makes
`get_axis_config` fail with `UnknownStrain`, whatever the antibiotic. -/
theorem get_axis_config_unknown_strain (strain : String)
    (h : CONFIG.lookup strain = none) (antibiotic : String) :
    get_axis_config strain antibiotic = .error Err.UnknownStrain := by
  simp [get_axis_config, resolve_parameters, h]

/-- Witness for C6 at the unknown strain `"ecoli"`. -/
theorem get_axis_config_unknown_strain_witness :
    CONFIG.lookup "ecoli" = none ∧
    get_axis_config "ecoli" "amk" = .error Err.UnknownStrain :=
  ⟨by rfl, get_axis_config_unknown_strain "ecoli" (by rfl) "amk"⟩

/-- C3: for every record of the config table and every value at or below
its threshold, the clamped bin index lies in `[0, 7]`, `get_color`
returns exactly the palette entry at that index, and that entry is one of
the 8 palette colors. -/
theorem low_regime_palette_safe (z : ℚ) (cfg : Cfg) (m : ℚ)
    (hc : cfg ∈ allConfigRecords) (hz : z ≤ cfg.z_lim) :
    0 ≤ clampIdx (get_group1_index z cfg.index_mode cfg.bin_size) ∧
    clampIdx (get_group1_index z cfg.index_mode cfg.bin_size) ≤ 7 ∧
    get_color z cfg m = .ok (.discrete (group1_palette.getD
      (clampIdx (get_group1_index z cfg.index_mode cfg.bin_size)).toNat "grey")) ∧
    group1_palette.getD
      (clampIdx (get_group1_index z cfg.index_mode cfg.bin_size)).toNat "grey"
      ∈ group1_palette := by
  have hform : clampIdx (get_group1_index z cfg.index_mode cfg.bin_size) =
      max 0 (min (get_group1_index z cfg.index_mode cfg.bin_size) 7) := by
    simp [clampIdx, group1_palette]
  have h0 : 0 ≤ clampIdx (get_group1_index z cfg.index_mode cfg.bin_size) := by
    rw [hform]; exact le_max_left _ _
  have h7 : clampIdx (get_group1_index z cfg.index_mode cfg.bin_size) ≤ 7 := by
    rw [hform]
    exact max_le (by norm_num) (min_le_right _ _)
  refine ⟨h0, h7, by simp [get_color, hz], ?_⟩
  have hn : (clampIdx (get_group1_index z cfg.index_mode cfg.bin_size)).toNat ≤ 7 := by
    omega
  set n := (clampIdx (get_group1_index z cfg.index_mode cfg.bin_size)).toNat
  interval_cases n <;> decide

/-- Witness for C3: the spec's example `z = -50` against the
`AB_single → non_beta` record (bin mode `"ab"`, bin size 10, threshold
95) stays in bounds and uses index 0. -/
theorem low_regime_palette_safe_witness :
    cfg_AB_single_non_beta ∈ allConfigRecords ∧
    ((-50 : ℚ) ≤ cfg_AB_single_non_beta.z_lim) ∧
    clampIdx (get_group1_index (-50) cfg_AB_single_non_beta.index_mode
      cfg_AB_single_non_beta.bin_size) = 0 ∧
    (0 ≤ clampIdx (get_group1_index (-50) cfg_AB_single_non_beta.index_mode
        cfg_AB_single_non_beta.bin_size) ∧
      clampIdx (get_group1_index (-50) cfg_AB_single_non_beta.index_mode
        cfg_AB_single_non_beta.bin_size) ≤ 7 ∧
      get_color (-50) cfg_AB_single_non_beta 180 =
        .ok (.discrete (group1_palette.getD
          (clampIdx (get_group1_index (-50) cfg_AB_single_non_beta.index_mode
            cfg_AB_single_non_beta.bin_size)).toNat "grey")) ∧
      group1_palette.getD
        (clampIdx (get_group1_index (-50) cfg_AB_single_non_beta.index_mode
          cfg_AB_single_non_beta.bin_size)).toNat "grey" ∈ group1_palette) :=
  ⟨by decide, by norm_num [cfg_AB_single_non_beta],
    by norm_num [cfg_AB_single_non_beta, get_group1_index, clampIdx, group1_palette],
    low_regime_palette_safe (-50) cfg_AB_single_non_beta 180 (by decide)
      (by norm_num [cfg_AB_single_non_beta])⟩

/-- C7, corrected, counterexample: the colorizer has no guard for a
degenerate normalization domain — for the High-regime value `z = 100`
with `observedMax = 94` strictly below the threshold 95, it fails with
matplotlib's `ValueError` instead of returning a gradient color. -/
theorem get_color_degenerate_counterexample :
    cfg_AB_single_non_beta.z_lim < (100 : ℚ) ∧
    (94 : ℚ) ≤ cfg_AB_single_non_beta.z_lim ∧
    get_color 100 cfg_AB_single_non_beta 94 = .error Err.NormalizeValueError := by
  refine ⟨by norm_num [cfg_AB_single_non_beta], by norm_num [cfg_AB_single_non_beta], ?_⟩
  rfl

/-- C7, amended: for a High-regime value, when `observedMax` equals the
threshold the colorizer returns the gradient color of fraction 0
(matplotlib `Normalize` maps everything to 0 on an equal domain), and
when `observedMax` is strictly below the threshold it fails with
matplotlib's `ValueError` — the source has no guard of its own. -/
theorem get_color_degenerate_domain (z m : ℚ) (cfg : Cfg)
    (hz : cfg.z_lim < z) :
    (m = cfg.z_lim → get_color z cfg m = .ok (.gradient 0)) ∧
    (m < cfg.z_lim → get_color z cfg m = .error Err.NormalizeValueError) := by
  have hnle : ¬ z ≤ cfg.z_lim := not_le.mpr hz
  constructor
  · intro hm
    simp [get_color, hnle, mplNormalize, hm]
  · intro hm
    have hne : cfg.z_lim ≠ m := ne_of_gt hm
    simp [get_color, hnle, mplNormalize, hne, hm]

/-- Witness for C7 (amended) at `z = 100`, `observedMax = 95 = z_lim`. -/
theorem get_color_degenerate_domain_witness :
    cfg_AB_single_non_beta.z_lim < (100 : ℚ) ∧
    get_color 100 cfg_AB_single_non_beta 95 = .ok (.gradient 0) :=
  ⟨by norm_num [cfg_AB_single_non_beta],
    (get_color_degenerate_domain 100 95 cfg_AB_single_non_beta
      (by norm_num [cfg_AB_single_non_beta])).1
      (by norm_num [cfg_AB_single_non_beta])⟩

/-- C10: the color depends only on the `z_lim`, `index_mode` and
`bin_size` fields of the record — two records agreeing on those three
yield the same color for every value and every observed maximum. -/
theorem get_color_depends_only_on_three_fields (cfg1 cfg2 : Cfg)
    (h1 : cfg1.z_lim = cfg2.z_lim) (h2 : cfg1.index_mode = cfg2.index_mode)
    (h3 : cfg1.bin_size = cfg2.bin_size) (z m : ℚ) :
    get_color z cfg1 m = get_color z cfg2 m := by
  simp only [get_color, h1, h2, h3]

/-- Witness for C10: the two `AB_single` records differ (in `axis_z`)
yet agree on the three color-relevant fields, and color a value
identically. -/
theorem get_color_depends_only_on_three_fields_witness :
    cfg_AB_single_non_beta ≠ cfg_AB_single_beta ∧
    get_color 22 cfg_AB_single_non_beta 180 = get_color 22 cfg_AB_single_beta 180 :=
  ⟨by decide,
    get_color_depends_only_on_three_fields cfg_AB_single_non_beta
      cfg_AB_single_beta rfl rfl rfl 22 180⟩

/-- A sheet whose name matches the MIC dose-stage pattern but which
lacks the required `"Z value"` column. -/
def sheetMissingCols : Sheet :=
  ⟨"exp_MIC", ["X value", "Y value"], []⟩

/-- A well-formed IC50 sheet with one complete row. -/
def sheetGood : Sheet :=
  ⟨"exp2_IC50", ["X value", "Y value", "Z value"],
    [[("X value", some 1), ("Y value", some 2), ("Z value", some 3)]]⟩

/-- If some sheet of the workbook raises during processing, the whole
load fails. -/
theorem loadFrames_error_of_mem (e : Err) (sheets : List Sheet)
    (s : Sheet) (hs : s ∈ sheets) (hp : processSheet s = .error e) :
    ∃ e2, loadFrames sheets = .error e2 := by
  induction sheets with
  | nil => exact absurd hs (List.not_mem_nil s)
  | cons t rest ih =>
    rcases List.mem_cons.mp hs with h | h
    · subst h
      exact ⟨e, by simp [loadFrames, hp]⟩
    · cases hpt : processSheet t with
      | error e3 => exact ⟨e3, by simp [loadFrames, hpt]⟩
      | ok o =>
        obtain ⟨e2, h2⟩ := ih h
        cases o with
        | none => exact ⟨e2, by simp [loadFrames, hpt, h2]⟩
        | some f => exact ⟨e2, by simp [loadFrames, hpt, h2, Except.map]⟩

/-- C8, corrected, counterexample: a dose-stage sheet missing a required
column is not skipped — it aborts the whole load with the pandas
`KeyError`, and the following well-formed sheet is never delivered,
although on its own it loads fine. -/
theorem malformed_sheet_counterexample :
    (sheetStage sheetMissingCols.name).isSome = true ∧
    load_all_sheets [sheetMissingCols, sheetGood] = .error Err.MalformedColumns ∧
    load_all_sheets [sheetGood] = .ok [⟨1, 2, 3, "exp2_IC50", "IC50"⟩] :=
  ⟨by rfl, by rfl, by rfl⟩

/-- C8, amended: an input sheet whose name matches a dose-stage pattern
but which lacks one of the required columns makes the loader fail the
whole run (the unconditional column selection raises); only sheets
matching no dose-stage pattern are skipped. -/
theorem malformed_sheet_aborts_run (sheets : List Sheet) (s : Sheet)
    (hs : s ∈ sheets) (hst : (sheetStage s.name).isSome = true)
    (hcol : ¬ (requiredCols.all (fun c => s.columns.contains c) = true)) :
    ∃ e, load_all_sheets sheets = .error e := by
  obtain ⟨sg, hsg⟩ := Option.isSome_iff_exists.mp hst
  have hp : processSheet s = .error .MalformedColumns := by
    simp only [processSheet, hsg]
    rw [if_neg hcol]
  obtain ⟨e2, h2⟩ := loadFrames_error_of_mem _ sheets s hs hp
  exact ⟨e2, by simp [load_all_sheets, h2]⟩

/-- Witness for C8 (amended) on a one-sheet workbook. -/
theorem malformed_sheet_aborts_run_witness :
    sheetMissingCols ∈ [sheetMissingCols] ∧
    ∃ e, load_all_sheets [sheetMissingCols] = .error e :=
  ⟨by simp,
    malformed_sheet_aborts_run [sheetMissingCols] sheetMissingCols
      (by simp) (by rfl) (by decide)⟩

/-- If no sheet matches a dose-stage pattern, processing accumulates no
frame. -/
theorem loadFrames_nil_of_no_stage (sheets : List Sheet)
    (h : ∀ s ∈ sheets, sheetStage s.name = none) :
    loadFrames sheets = .ok [] := by
  induction sheets with
  | nil => rfl
  | cons t rest ih =>
    have ht : processSheet t = .ok none := by
      simp [processSheet, h t (by simp)]
    simp [loadFrames, ht, ih (fun s hs => h s (by simp [hs]))]

/-- C9, corrected, counterexample: the aggregator applied to the empty
sequence of measurement points returns the empty aggregate — it does not
fail. -/
theorem avg_data_empty_counterexample : avg_data [] = [] := by
  rfl

/-- C9, amended: `avg_data` on the empty point sequence returns the
empty aggregate, and the empty-input failure instead occurs in
`load_all_sheets`: when no sheet of the workbook matches a dose-stage
pattern, `pd.concat` of the empty frame list raises. -/
theorem empty_input_fails_in_loader (sheets : List Sheet)
    (h : ∀ s ∈ sheets, sheetStage s.name = none) :
    avg_data [] = [] ∧ load_all_sheets sheets = .error Err.EmptyInput := by
  refine ⟨rfl, ?_⟩
  simp [load_all_sheets, loadFrames_nil_of_no_stage sheets h]

/-- Witness for C9 (amended) on the empty workbook. -/
theorem empty_input_fails_in_loader_witness :
    avg_data [] = [] ∧ load_all_sheets [] = .error Err.EmptyInput :=
  empty_input_fails_in_loader [] (by simp)

end HTSViz
